import Mathlib

/-!
Shallow embedding of the `corroded_dav_cli` core (controller, catalogue
parser, filter predicate) and verification of its specification claims.

Conventions of the embedding:
* Rust `u64` values are modelled as `Nat`; where u64 saturation matters the
  bound `u64Max = 2^64 - 1` appears explicitly (`u64::max_value()` in the
  source).
* Timestamps (`chrono::DateTime<Utc>` / `dateparser::DateTimeUtc`) are
  modelled as `Int` (an epoch instant); only their linear order is used by
  the code under verification.
* External collaborators that the spec puts out of scope (the `url` crate's
  join, the chrono/dateparser date grammars, the local file system and the
  HTTP transport) are modelled as explicit function parameters, collected in
  an `Env` record for the controller; the controller code itself is
  translated statement by statement from `src/davctrl.rs`.
* Side effects that the claims talk about (local file creation, transport
  calls, the anonymous-credentials warning) are recorded in an explicit
  event trace returned next to each result.
-/

/-- Upper bound of Rust `u64`, i.e. `u64::max_value()`. -/
def u64Max : Nat := 2 ^ 64 - 1

/-- Model of `url::Host`: a registered domain name or an IP address. -/
inductive UrlHost where
  | Domain (name : String)
  | Ipv4 (addr : String)
  | Ipv6 (addr : String)
deriving DecidableEq

/-- Model of `url::Url`: the serialized form (`as_str`), the optional host
and the path component.  URL joining is an external-collaborator operation
and is passed in explicitly where needed. -/
structure Url where
  full : String
  host : Option UrlHost
  path : String
deriving DecidableEq

/-- Split a character list at a separator; like Rust `str::split`, the
result always has one piece more than there are separators. -/
def splitOnChar (sep : Char) : List Char → List (List Char)
  | [] => [[]]
  | c :: rest =>
    if c == sep then [] :: splitOnChar sep rest
    else match splitOnChar sep rest with
      | h :: t => (c :: h) :: t
      | [] => [[c]]

/-- Whether a string ends with a slash; models Rust
`str::ends_with('/')`. -/
def pathEndsWithSlash (s : String) : Bool :=
  s.data.getLast? == some '/'

/-- Model of `url::Url::path_segments()`: `none` for cannot-be-a-base URLs
(paths not starting with a slash), otherwise the path after the leading
slash split at slashes. -/
def Url.pathSegments (u : Url) : Option (List String) :=
  match u.path.data with
  | '/' :: rest => some ((splitOnChar '/' rest).map (fun cs => { data := cs }))
  | _ => none

/-- Model of `url.path_segments().and_then(|paths| paths.last())`. -/
def Url.pathSegmentsLast (u : Url) : Option String :=
  u.pathSegments.bind (fun segs => segs.getLast?)

/-- Model of `std::path::Path::join` for a relative file name. -/
def pathJoin (dir filename : String) : String :=
  dir ++ "/" ++ filename

/-- Error kinds of Rust `ParseIntError` reachable from `str::parse::<u64>`. -/
inductive IntErrorKind where
  | empty
  | invalidDigit
  | posOverflow
deriving DecidableEq

/-- Display text of `ParseIntError`, as produced by `to_string()`. -/
def intErrorMessage : IntErrorKind → String
  | .empty => "cannot parse integer from empty string"
  | .invalidDigit => "invalid digit found in string"
  | .posOverflow => "number too large to fit in target type"

/-- Decimal value of a digit list. -/
def digitsToNat (ds : List Char) : Nat :=
  ds.foldl (fun acc c => acc * 10 + (c.toNat - 48)) 0

/-- Digit-part evaluation of Rust `str::parse::<u64>` after the optional
sign: one or more ASCII digits whose value must fit in 64 bits. -/
def parseU64Digits (ds : List Char) : Except IntErrorKind Nat :=
  if ds.isEmpty then .error .invalidDigit
  else if ds.all (fun d => d.isDigit) then
    if digitsToNat ds ≤ u64Max then .ok (digitsToNat ds)
    else .error .posOverflow
  else .error .invalidDigit

/-- Model of Rust `str::parse::<u64>`: an optional leading `+`, then one or
more ASCII digits, and the value must fit in 64 bits. -/
def parseU64 (s : String) : Except IntErrorKind Nat :=
  match s.data with
  | [] => .error .empty
  | c :: cs => parseU64Digits (if c == '+' then cs else c :: cs)

/-- Rust `str::parse::<u64>` with the error rendered to text, as consumed by
the tolerant property extraction and by filter construction. -/
def parseU64Str (s : String) : Except String Nat :=
  match parseU64 s with
  | .ok v => .ok v
  | .error k => .error (intErrorMessage k)

/-- Rust `str::parse::<String>` (the `FromStr` instance for `String`), which
never fails. -/
def parseStringStr (s : String) : Except String String := .ok s

/-- Model of Rust `haystack.find(needle).is_some()` for plain string
patterns: whether `needle` occurs as a contiguous substring of `haystack`.
Note the receiver is the haystack. -/
def strFindIsSome (haystack needle : String) : Bool :=
  (List.range (haystack.data.length + 1)).any
    (fun i => needle.data.isPrefixOf (haystack.data.drop i))

/-- Model of a minidom DOM element: name, namespace, element children and
text content. -/
inductive Element where
  | mk (name : String) (ns : String) (children : List Element) (text : String)

/-- Element name. -/
def Element.name : Element → String
  | .mk n _ _ _ => n

/-- Element namespace. -/
def Element.ns : Element → String
  | .mk _ ns _ _ => ns

/-- Element children. -/
def Element.children : Element → List Element
  | .mk _ _ cs _ => cs

/-- Text content of an element. -/
def Element.text : Element → String
  | .mk _ _ _ t => t

/-- Model of `minidom::Element::is(name, ns)`. -/
def Element.is (e : Element) (name ns : String) : Bool :=
  e.name == name && e.ns == ns

/-- Model of `minidom::Element::get_child(name, ns)`: the first child
element with the given name and namespace. -/
def Element.get_child (e : Element) (name ns : String) : Option Element :=
  e.children.find? (fun child => child.is name ns)

/-- `src/catalogue.rs`: the `CatalogueInfo` record representing one DAV
object's metadata. -/
structure CatalogueInfo where
  url : Url
  name : String
  size : Option Nat
  date : Option Int
  file_type : Option String
deriving DecidableEq

/-- `src/catalogue.rs`, macro `extract_property!`: look a property child up
in `prop`; if present and its text parses, `some value`, otherwise (missing
child or parse failure) `none` — no error is ever raised. -/
def extractProperty {α : Type} (parse : String → Except String α)
    (prop : Element) (element_name namespace_name : String) : Option α :=
  match prop.get_child element_name namespace_name with
  | some size_node =>
    match parse size_node.text with
    | .ok size => some size
    | .error _ => none
  | none => none

/-- `src/catalogue.rs`, `CatalogueInfo::new`: build the metadata record for
one `response` element.  `join` models `url::Url::join` and `parseDate`
models the `dateparser` crate's `DateTimeUtc` parser (both external
collaborators). -/
def CatalogueInfo.new (join : Url → String → Except String Url)
    (parseDate : String → Except String Int)
    (base : Url) (response : Element) : CatalogueInfo :=
  let name := match response.get_child "href" "DAV:" with
    | some href_child => href_child.text
    | none => "."
  let url := match join base name with
    | .ok joined_url => joined_url
    | .error _ => base
  match (response.get_child "propstat" "DAV:").bind
      (fun propstat => propstat.get_child "prop" "DAV:") with
  | some prop =>
    { url := url, name := name,
      size := extractProperty parseU64Str prop "getcontentlength" "DAV:",
      date := extractProperty parseDate prop "getlastmodified" "DAV:",
      file_type := extractProperty parseStringStr prop "getcontenttype" "DAV:" }
  | none =>
    { url := url, name := name, size := none, date := none, file_type := none }

/-- `src/filter.rs`: the error type of filter construction.  The single
variant carries only the rendered text of the underlying parse error
(`From<ParseIntError>` / `From<chrono::ParseError>` both call
`to_string()`). -/
inductive FilterCriteriaError where
  | ParseError (msg : String)
deriving DecidableEq

/-- `src/filter.rs`: the `FilterCriteria` record. -/
structure FilterCriteria where
  file_type : Option String
  min_size : Option Nat
  max_size : Option Nat
  earliest_modification : Option Int
  latest_modification : Option Int
deriving DecidableEq

/-- `src/filter.rs`, macro `parse_filter_desc!` at type `u64`: `"*"` means
no constraint, anything else must parse, and a parse error is converted by
the `From<ParseIntError>` instance. -/
def parseFilterU64 (desc : String) : Except FilterCriteriaError (Option Nat) :=
  if desc == "*" then .ok none
  else match parseU64 desc with
    | .ok v => .ok (some v)
    | .error k => .error (.ParseError (intErrorMessage k))

/-- `src/filter.rs`, macro `parse_filter_desc!` at type `DateTime<Utc>`:
`"*"` means no constraint, anything else goes through the chrono parser
(modelled by the `pd` parameter, errors already rendered to text). -/
def parseFilterDate (pd : String → Except String Int) (desc : String) :
    Except FilterCriteriaError (Option Int) :=
  if desc == "*" then .ok none
  else match pd desc with
    | .ok v => .ok (some v)
    | .error msg => .error (.ParseError msg)

/-- `src/filter.rs`, `FilterCriteria::new`: each field comes from its
description; the first parse failure aborts construction.  Field order
follows the Rust struct literal (`file_type` cannot fail). -/
def FilterCriteria.new (pd : String → Except String Int)
    (file_type_desc min_size_desc max_size_desc
     earliest_modification_desc latest_modification_desc : String) :
    Except FilterCriteriaError FilterCriteria := do
  let file_type := if file_type_desc == "*" then none else some file_type_desc
  let min_size ← parseFilterU64 min_size_desc
  let max_size ← parseFilterU64 max_size_desc
  let earliest_modification ← parseFilterDate pd earliest_modification_desc
  let latest_modification ← parseFilterDate pd latest_modification_desc
  return { file_type := file_type, min_size := min_size, max_size := max_size,
           earliest_modification := earliest_modification,
           latest_modification := latest_modification }

/-- `src/filter.rs`, `FilterCriteria::match_all`. -/
def FilterCriteria.match_all : FilterCriteria :=
  { file_type := none, min_size := none, max_size := none,
    earliest_modification := none, latest_modification := none }

/-- Type portion of `FilterCriteria::matches`: in the source,
`regex.find(file_type).is_some()` — `regex` is the constraint string and is
the receiver of `str::find`, so the search looks for the entry's content
type inside the constraint. -/
def FilterCriteria.matchesType (self : FilterCriteria) (attrs : CatalogueInfo) : Bool :=
  match self.file_type with
  | some regex =>
    match attrs.file_type with
    | some file_type => strFindIsSome regex file_type
    | none => false
  | none => true

/-- Time portion of `FilterCriteria::matches` (falls through to the type
portion, mirroring the early returns of the source). -/
def FilterCriteria.matchesTime (self : FilterCriteria) (attrs : CatalogueInfo) : Bool :=
  match attrs.date with
  | some creation_date =>
    if creation_date < self.earliest_modification.getD creation_date then false
    else if creation_date > self.latest_modification.getD creation_date then false
    else self.matchesType attrs
  | none => self.matchesType attrs

/-- `src/filter.rs`, `FilterCriteria::matches`: size check first (max, then
min), then the time check, then the type check. -/
def FilterCriteria.matches (self : FilterCriteria) (attrs : CatalogueInfo) : Bool :=
  match attrs.size with
  | some size =>
    if size > self.max_size.getD u64Max then false
    else if size < self.min_size.getD 0 then false
    else self.matchesTime attrs
  | none => self.matchesTime attrs

/-- Model of `netrc::Machine`: the login is always present, the password is
optional. -/
structure Machine where
  login : String
  password : Option String
deriving DecidableEq

/-- Model of `netrc::Netrc`: the per-host entry list plus the optional
default entry. -/
structure Netrc where
  hosts : List (String × Machine)
  default : Option Machine
deriving DecidableEq

/-- Model of `std::io::Error` as far as the controller distinguishes it:
the `InvalidData` kind used for malformed responses, and other errors
carrying a message. -/
inductive IoErrorKind where
  | invalidData
  | other (msg : String)
deriving DecidableEq

/-- `src/davctrl.rs`: the `DavCtrlError` sum type.  `Dav` carries the
rendered transport-error detail. -/
inductive DavCtrlError where
  | Dav (detail : String)
  | InvalidSource (msg : String)
  | InvalidDestination (msg : String)
  | Local (kind : IoErrorKind)
deriving DecidableEq

/-- Model of a transport response: HTTP status plus raw body text. -/
structure TransportResponse where
  status : Nat
  body : String
deriving DecidableEq

/-- Observable side effects of the controller, recorded as an event trace:
local file creation, the four transport calls, and the anonymous-fallback
warning printed by credential resolution. -/
inductive Event where
  | fileCreate (path : String)
  | transportGet (url : Url)
  | transportPut (url : Url)
  | transportList (url : Url)
  | transportDelete (url : Url)
  | warnAnonymous (url : Url)
deriving DecidableEq

/-- Whether an event is a network (transport) call. -/
def Event.isTransport : Event → Bool
  | .transportGet _ => true
  | .transportPut _ => true
  | .transportList _ => true
  | .transportDelete _ => true
  | _ => false

/-- External collaborators of the controller, modelled as explicit
functions: URL joining, the date parser, local file-system operations and
the transport client.  Fallible transport calls return the response or the
rendered transport error. -/
structure Env where
  join : Url → String → Except String Url
  parseDate : String → Except String Int
  fileName : String → Option String
  isFile : String → Bool
  isDir : String → Bool
  openFile : String → Except IoErrorKind Unit
  createFile : String → Except IoErrorKind Unit
  copyBody : Url → String → Except String Unit
  flushFile : String → Except IoErrorKind Unit
  putResult : String → Url → Except String TransportResponse
  getResult : Url → Except String TransportResponse
  listResult : Url → Except String TransportResponse
  parseXml : String → Except String Element

/-- reqwest `StatusCode::is_success()`: 200 ≤ status ≤ 299. -/
def statusIsSuccess (status : Nat) : Bool :=
  200 ≤ status && status ≤ 299

/-- reqwest `Response::error_for_status_ref()`: an error (with rendered
detail) exactly for client-error and server-error statuses. -/
def errorForStatus (status : Nat) : Option String :=
  if 400 ≤ status && status ≤ 599 then
    some ("HTTP status error " ++ toString status)
  else none

/-- `src/davctrl.rs`, `DavController::_ensure_response_ok`. -/
def ensureResponseOk (response : TransportResponse) :
    Except DavCtrlError TransportResponse :=
  if !(statusIsSuccess response.status) then
    match errorForStatus response.status with
    | some dav_error => .error (.Dav dav_error)
    | none => .error (.Local (.other "Error status returned without information"))
  else .ok response

/-- The host test of the `_find_in_netrc` loop: the URL host matches a
table entry exactly when it is a domain equal to the entry's hostname. -/
def hostMatchesEntry (url_host : UrlHost) (host : String × Machine) : Bool :=
  match url_host with
  | .Domain hostname => hostname == host.1
  | _ => false

/-- `src/davctrl.rs`, `DavController::_find_in_netrc`: first per-host entry
whose hostname equals the URL domain, else the default entry. -/
def DavController.findInNetrc (netrc : Netrc) (url_host : UrlHost) : Option Machine :=
  match netrc.hosts.find? (hostMatchesEntry url_host) with
  | some host => some host.2
  | none => netrc.default

/-- `src/davctrl.rs`, `DavController::_build_client`: returns the resolved
(login, password) pair next to the warning events emitted.  Credentials come
from a netrc entry only when the URL has a host, an entry was found and that
entry carries a password; every other path warns and uses anonymous
credentials. -/
def DavController.buildClient (netrc : Netrc) (url : Url) :
    (String × String) × List Event :=
  match url.host with
  | some hostname =>
    match DavController.findInNetrc netrc hostname with
    | some machine =>
      match machine.password with
      | some password => ((machine.login, password), [])
      | none => (("", ""), [.warnAnonymous url])
    | none => (("", ""), [.warnAnonymous url])
  | none => (("", ""), [.warnAnonymous url])

/-- `src/davctrl.rs`, `DavController::_put_one`: existence check, local
open, transport put, status check. -/
def DavController.putOne (env : Env) (file_path : String) (target_url : Url) :
    Except DavCtrlError TransportResponse × List Event :=
  if env.isFile file_path then
    match env.openFile file_path with
    | .error e => (.error (.Local e), [])
    | .ok _ =>
      match env.putResult file_path target_url with
      | .error msg => (.error (.Dav msg), [.transportPut target_url])
      | .ok response =>
        match ensureResponseOk response with
        | .error e => (.error e, [.transportPut target_url])
        | .ok response => (.ok response, [.transportPut target_url])
  else
    (.error (.InvalidSource ("Not an existing file: " ++ file_path)), [])

/-- Loop body of `DavController::put`, for one file of the batch.  The
closure captures the whole `file_paths` batch (for the length test) and the
target base URL. -/
def DavController.putStep (env : Env) (file_paths : List String) (target_base : Url)
    (acc : List (Except DavCtrlError TransportResponse) × List Event)
    (file_path : String) :
    List (Except DavCtrlError TransportResponse) × List Event :=
  if !(pathEndsWithSlash target_base.path) then
    if file_paths.length == 1 then
      let r := DavController.putOne env file_path target_base
      (acc.1 ++ [r.1], acc.2 ++ r.2)
    else
      (acc.1 ++ [.error (.InvalidDestination
        ("Given target URL " ++ target_base.full ++
         " is not a directory and cannot receive multiple files"))], acc.2)
  else
    match env.fileName file_path with
    | some filename =>
      match env.join target_base filename with
      | .ok target_url =>
        let r := DavController.putOne env file_path target_url
        (acc.1 ++ [r.1], acc.2 ++ r.2)
      | .error e =>
        (acc.1 ++ [.error (.InvalidSource
          ("Given text '" ++ e ++ "' is not a valid URL"))], acc.2)
    | none =>
      (acc.1 ++ [.error (.InvalidSource
        ("Source path '" ++ file_path ++ "' does not end with a file name"))], acc.2)

/-- `src/davctrl.rs`, `DavController::put`: resolve credentials once for
the target base, then process every file of the batch in order. -/
def DavController.put (env : Env) (netrc : Netrc)
    (file_paths : List String) (target_base : Url) :
    List (Except DavCtrlError TransportResponse) × List Event :=
  let bc := DavController.buildClient netrc target_base
  file_paths.foldl (DavController.putStep env file_paths target_base) ([], bc.2)

/-- `src/davctrl.rs`, `DavController::_get_one`: directory check, filename
extraction, local file creation, transport get, status check, body copy,
flush. -/
def DavController.getOne (env : Env) (source : Url) (target_dir : String) :
    Except DavCtrlError TransportResponse × List Event :=
  if env.isDir target_dir then
    match source.pathSegmentsLast with
    | none =>
      (.error (.InvalidSource
        ("Source URL '" ++ source.full ++ "' contains no filename")), [])
    | some filename =>
      let local_path := pathJoin target_dir filename
      match env.createFile local_path with
      | .error e => (.error (.Local e), [.fileCreate local_path])
      | .ok _ =>
        match env.getResult source with
        | .error msg =>
          (.error (.Dav msg), [.fileCreate local_path, .transportGet source])
        | .ok response =>
          match ensureResponseOk response with
          | .error e =>
            (.error e, [.fileCreate local_path, .transportGet source])
          | .ok response =>
            match env.copyBody source local_path with
            | .error msg =>
              (.error (.Dav msg), [.fileCreate local_path, .transportGet source])
            | .ok _ =>
              match env.flushFile local_path with
              | .error e =>
                (.error (.Local e), [.fileCreate local_path, .transportGet source])
              | .ok _ =>
                (.ok response, [.fileCreate local_path, .transportGet source])
  else
    (.error (.InvalidDestination
      ("Destination '" ++ target_dir ++ "' is not a directory")), [])

/-- `src/davctrl.rs`, `DavController::get`: credentials are resolved per
source, each source is processed independently in order. -/
def DavController.get (env : Env) (netrc : Netrc)
    (sources : List Url) (target_dir : String) :
    List (Except DavCtrlError TransportResponse) × List Event :=
  sources.foldl (fun acc source =>
    let bc := DavController.buildClient netrc source
    let r := DavController.getOne env source target_dir
    (acc.1 ++ [r.1], acc.2 ++ bc.2 ++ r.2)) ([], [])

/-- `src/davctrl.rs`, `DavController::_read_attributes_from_response`. -/
def DavController.readAttributesFromResponse (env : Env) (base : Url)
    (response : Element) : Except DavCtrlError CatalogueInfo :=
  if !(response.is "response" "DAV:") then
    .error (.Local .invalidData)
  else
    .ok (CatalogueInfo.new env.join env.parseDate base response)

/-- Loop of `DavController::ls` over the children of the multistatus root:
parse each `response` child, keep it when the filter matches. -/
def DavController.lsChildren (env : Env) (base : Url) (filter : FilterCriteria) :
    List Element → List CatalogueInfo → Except DavCtrlError (List CatalogueInfo)
  | [], retvec => .ok retvec
  | content :: rest, retvec =>
    if content.is "response" "DAV:" then
      match DavController.readAttributesFromResponse env base content with
      | .error e => .error e
      | .ok attrs =>
        if filter.matches attrs then
          DavController.lsChildren env base filter rest (retvec ++ [attrs])
        else
          DavController.lsChildren env base filter rest retvec
    else
      DavController.lsChildren env base filter rest retvec

/-- `src/davctrl.rs`, `DavController::ls`: transport list call with depth 1,
status check, XML parse, multistatus check, then the child loop. -/
def DavController.ls (env : Env) (netrc : Netrc)
    (url_to_list : Url) (filter : FilterCriteria) :
    Except DavCtrlError (List CatalogueInfo) × List Event :=
  let bc := DavController.buildClient netrc url_to_list
  let trace := bc.2 ++ [Event.transportList url_to_list]
  match env.listResult url_to_list with
  | .error msg => (.error (.Dav msg), trace)
  | .ok response =>
    match ensureResponseOk response with
    | .error e => (.error e, trace)
    | .ok response =>
      match env.parseXml response.body with
      | .error msg => (.error (.Local (.other msg)), trace)
      | .ok root =>
        if !(root.is "multistatus" "DAV:") then
          (.error (.Local .invalidData), trace)
        else
          match DavController.lsChildren env url_to_list filter root.children [] with
          | .error e => (.error e, trace)
          | .ok retvec => (.ok retvec, trace)

/-- Decidable equality for `Except`, used to evaluate results on concrete
inputs. -/
instance decEqExcept {ε α : Type} [DecidableEq ε] [DecidableEq α] :
    DecidableEq (Except ε α) := fun a b =>
  match a, b with
  | .error x, .error y =>
    if h : x = y then .isTrue (by rw [h]) else .isFalse (fun hc => by cases hc; exact h rfl)
  | .ok x, .ok y =>
    if h : x = y then .isTrue (by rw [h]) else .isFalse (fun hc => by cases hc; exact h rfl)
  | .error _, .ok _ => .isFalse (fun hc => by cases hc)
  | .ok _, .error _ => .isFalse (fun hc => by cases hc)

/-- A criteria with no type constraint always passes the type test. -/
theorem matchesType_none (lo hi : Option Nat) (e l : Option Int) (attrs : CatalogueInfo) :
    FilterCriteria.matchesType ⟨none, lo, hi, e, l⟩ attrs = true := rfl

/-- With both time bounds unset, the time test falls through to the type
test for every entry: a present date is compared against itself, and both
strict comparisons fail. -/
theorem matchesTime_no_bounds (ft : Option String) (lo hi : Option Nat)
    (attrs : CatalogueInfo) :
    FilterCriteria.matchesTime ⟨ft, lo, hi, none, none⟩ attrs =
      FilterCriteria.matchesType ⟨ft, lo, hi, none, none⟩ attrs := by
  unfold FilterCriteria.matchesTime
  cases attrs.date with
  | none => rfl
  | some d => simp [Option.getD]

/-- A concrete URL used for evaluating the filter on concrete entries. -/
def urlA : Url :=
  { full := "https://example.com/a.txt", host := some (.Domain "example.com"),
    path := "/a.txt" }

/-- Entry with content type `text/plain` and no other metadata. -/
def entryPlain : CatalogueInfo :=
  { url := urlA, name := "a.txt", size := none, date := none,
    file_type := some "text/plain" }

/-- Filter constraining only the type, to the string `plain`. -/
def filterPlain : FilterCriteria :=
  { file_type := some "plain", min_size := none, max_size := none,
    earliest_modification := none, latest_modification := none }

/-- C1: the code evaluated at the failing input.  The entry's content type
`text/plain` does contain the constraint `plain` as a substring, so by the
claim (and §4.4 of the spec) the entry must pass the type test; but
`matches` rejects it, because the source computes
`regex.find(file_type).is_some()` with the constraint string as the
receiver of `str::find`, i.e. it tests whether the *constraint* contains
the entry's content type — the containment direction is reversed. -/
theorem C1_type_containment_reversed :
    strFindIsSome "text/plain" "plain" = true ∧
    strFindIsSome "plain" "text/plain" = false ∧
    FilterCriteria.matches filterPlain entryPlain = false := by
  refine ⟨by decide, by decide, ?_⟩
  rfl

/-- C7: for a criteria whose only constraints are the size bounds, an entry
with a present size `s ≤ u64::MAX` matches exactly when
`min_size.getD 0 ≤ s ≤ max_size.getD u64::MAX`, and an entry without a size
always matches. -/
theorem C7_size_bounds (lo hi : Option Nat) (attrs : CatalogueInfo) :
    (∀ s, attrs.size = some s → s ≤ u64Max →
      (FilterCriteria.matches ⟨none, lo, hi, none, none⟩ attrs = true ↔
        lo.getD 0 ≤ s ∧ s ≤ hi.getD u64Max)) ∧
    (attrs.size = none →
      FilterCriteria.matches ⟨none, lo, hi, none, none⟩ attrs = true) := by
  constructor
  · intro s hs hle
    unfold FilterCriteria.matches
    rw [hs]
    rw [matchesTime_no_bounds, matchesType_none]
    cases hi with
    | none =>
      simp only [Option.getD]
      constructor
      · intro hmatch
        by_contra hcon
        rw [not_and_or] at hcon
        rcases hcon with hcon | hcon
        · rw [if_neg (by omega), if_pos (by omega)] at hmatch
          exact Bool.false_ne_true hmatch
        · omega
      · intro ⟨h1, h2⟩
        rw [if_neg (by omega), if_neg (by omega)]
    | some hival =>
      simp only [Option.getD]
      constructor
      · intro hmatch
        by_contra hcon
        rw [not_and_or] at hcon
        rcases hcon with hcon | hcon
        · by_cases hgt : s > hival
          · rw [if_pos (by omega)] at hmatch
            exact Bool.false_ne_true hmatch
          · rw [if_neg (by omega), if_pos (by omega)] at hmatch
            exact Bool.false_ne_true hmatch
        · rw [if_pos (by omega)] at hmatch
          exact Bool.false_ne_true hmatch
      · intro ⟨h1, h2⟩
        rw [if_neg (by omega), if_neg (by omega)]
  · intro hs
    unfold FilterCriteria.matches
    rw [hs]
    rw [matchesTime_no_bounds, matchesType_none]

/-- Entry with size 3 and otherwise arbitrary metadata, for witnesses. -/
def entrySize3 : CatalogueInfo :=
  { url := urlA, name := "b", size := some 3, date := some 5,
    file_type := some "application/pdf" }

/-- C7 witness: the size-bounds characterization applied at bounds `[2, 5]`
and an entry of size 3. -/
theorem C7_size_bounds_witness :
    FilterCriteria.matches ⟨none, some 2, some 5, none, none⟩ entrySize3 = true :=
  ((C7_size_bounds (some 2) (some 5) entrySize3).1 3 rfl (by decide)).mpr (by decide)

/-- A trivial date parser standing in for the chrono collaborator, for
evaluating filter construction on concrete inputs. -/
def pd0 : String → Except String Int := fun _ => .ok 0

/-- C4 counterexample: a parse failure in `min_size` and a parse failure in
`max_size` produce the *same* error value, `ParseError` of the underlying
message, so the construction error cannot identify the offending field. -/
theorem C4_error_does_not_identify_field :
    FilterCriteria.new pd0 "*" "x" "*" "*" "*" =
      .error (.ParseError "invalid digit found in string") ∧
    FilterCriteria.new pd0 "*" "*" "x" "*" "*" =
      .error (.ParseError "invalid digit found in string") := by
  constructor <;> rfl

/-- C4 amended: for every tuple of filter field descriptions, a wildcard
field yields no constraint, any other literal is parsed into the field's
target type (u64 for the size fields, a timestamp through the chrono
parser `pd` for the date fields, and the never-failing string parse for the
type field), and the first parse failure — in a size field or in a date
field alike — makes construction fail immediately (no filter value is
produced) with a `ParseError` carrying the underlying parser's message,
which does not identify the offending field. -/
theorem C4_construction (pd : String → Except String Int)
    (ft lo hi e l : String) :
    (FilterCriteria.new pd "*" "*" "*" "*" "*" = .ok FilterCriteria.match_all) ∧
    (∀ k, lo ≠ "*" → parseU64 lo = .error k →
      FilterCriteria.new pd ft lo hi e l =
        .error (.ParseError (intErrorMessage k))) ∧
    (∀ v w, lo ≠ "*" → hi ≠ "*" → parseU64 lo = .ok v → parseU64 hi = .ok w →
      FilterCriteria.new pd ft lo hi "*" "*" =
        .ok { file_type := if ft == "*" then none else some ft,
              min_size := some v, max_size := some w,
              earliest_modification := none, latest_modification := none }) ∧
    (∀ mv mw msg, parseFilterU64 lo = .ok mv → parseFilterU64 hi = .ok mw →
      e ≠ "*" → pd e = .error msg →
      FilterCriteria.new pd ft lo hi e l = .error (.ParseError msg)) ∧
    (∀ mv mw d msg, parseFilterU64 lo = .ok mv → parseFilterU64 hi = .ok mw →
      e ≠ "*" → pd e = .ok d → l ≠ "*" → pd l = .error msg →
      FilterCriteria.new pd ft lo hi e l = .error (.ParseError msg)) ∧
    (∀ d, e ≠ "*" → pd e = .ok d →
      parseFilterDate pd e = .ok (some d)) ∧
    (∀ mv mw d1 d2, parseFilterU64 lo = .ok mv → parseFilterU64 hi = .ok mw →
      e ≠ "*" → pd e = .ok d1 → l ≠ "*" → pd l = .ok d2 →
      FilterCriteria.new pd ft lo hi e l =
        .ok { file_type := if ft == "*" then none else some ft,
              min_size := mv, max_size := mw,
              earliest_modification := some d1,
              latest_modification := some d2 }) := by
  refine ⟨rfl, ?_, ?_, ?_, ?_, ?_, ?_⟩
  · intro k hlo hk
    have hbeq : (lo == "*") = false := by
      simp [hlo]
    simp [FilterCriteria.new, parseFilterU64, hbeq, hk, Bind.bind, Except.bind]
  · intro v w hlo hhi hv hw
    have hbeqlo : (lo == "*") = false := by simp [hlo]
    have hbeqhi : (hi == "*") = false := by simp [hhi]
    simp [FilterCriteria.new, parseFilterU64, parseFilterDate, hbeqlo, hbeqhi,
      hv, hw, Bind.bind, Except.bind, Pure.pure, Except.pure]
  · intro mv mw msg hmv hmw he hpe
    have hbeqe : (e == "*") = false := by simp [he]
    simp [FilterCriteria.new, hmv, hmw, parseFilterDate, hbeqe, hpe,
      Bind.bind, Except.bind]
  · intro mv mw d msg hmv hmw he hpe hl hpl
    have hbeqe : (e == "*") = false := by simp [he]
    have hbeql : (l == "*") = false := by simp [hl]
    simp [FilterCriteria.new, hmv, hmw, parseFilterDate, hbeqe, hpe, hbeql,
      hpl, Bind.bind, Except.bind]
  · intro d he hd
    have hbeqe : (e == "*") = false := by simp [he]
    simp [parseFilterDate, hbeqe, hd]
  · intro mv mw d1 d2 hmv hmw he hpe hl hpl
    have hbeqe : (e == "*") = false := by simp [he]
    have hbeql : (l == "*") = false := by simp [hl]
    simp [FilterCriteria.new, hmv, hmw, parseFilterDate, hbeqe, hpe, hbeql,
      hpl, Bind.bind, Except.bind, Pure.pure, Except.pure]

/-- A date parser standing in for the chrono collaborator that rejects the
literal `bad` with a rendered parse error and accepts everything else. -/
def pdW : String → Except String Int :=
  fun s => if s == "bad" then .error "trailing input" else .ok 7

/-- C4 witness: the amended construction theorem applied at a failing
`min_size` literal, and at a failing `earliest_modification` date literal
whose parse error likewise aborts construction. -/
theorem C4_construction_witness :
    FilterCriteria.new pd0 "text" "x" "7" "*" "*" =
      .error (.ParseError "invalid digit found in string") ∧
    FilterCriteria.new pdW "text" "*" "7" "bad" "*" =
      .error (.ParseError "trailing input") :=
  ⟨(C4_construction pd0 "text" "x" "7" "*" "*").2.1 .invalidDigit
    (by decide) (by decide),
   (C4_construction pdW "text" "*" "7" "bad" "*").2.2.2.1 none (some 7)
    "trailing input" rfl (by decide) (by decide) rfl⟩

/-- The `prop` container of a listing-entry element (nested via `propstat`
then `prop`). -/
def entryPropElement (response : Element) : Option Element :=
  (response.get_child "propstat" "DAV:").bind
    (fun propstat => propstat.get_child "prop" "DAV:")

/-- The size property of a listing-entry element, extracted on its own. -/
def entrySizeProperty (response : Element) : Option Nat :=
  (entryPropElement response).bind
    (fun prop => extractProperty parseU64Str prop "getcontentlength" "DAV:")

/-- The modification-date property of a listing-entry element, extracted on
its own. -/
def entryDateProperty (pd : String → Except String Int) (response : Element) :
    Option Int :=
  (entryPropElement response).bind
    (fun prop => extractProperty pd prop "getlastmodified" "DAV:")

/-- The content-type property of a listing-entry element, extracted on its
own. -/
def entryTypeProperty (response : Element) : Option String :=
  (entryPropElement response).bind
    (fun prop => extractProperty parseStringStr prop "getcontenttype" "DAV:")

/-- A listing-entry element carrying only an href child and a
content-length property with the given text. -/
def entryWithSizeOnly (name_text size_text : String) : Element :=
  .mk "response" "DAV:"
    [.mk "href" "DAV:" [] name_text,
     .mk "propstat" "DAV:"
       [.mk "prop" "DAV:" [.mk "getcontentlength" "DAV:" [] size_text] ""] ""] ""

/-- When the property child is present, tolerant extraction is exactly the
`Option` view of the parse result of its text. -/
theorem extractProperty_toOption {α : Type} (parse : String → Except String α)
    (prop : Element) (n ns : String) (node : Element)
    (h : prop.get_child n ns = some node) :
    extractProperty parse prop n ns = (parse node.text).toOption := by
  cases hp : parse node.text with
  | ok v => simp [extractProperty, h, hp, Except.toOption]
  | error msg => simp [extractProperty, h, hp, Except.toOption]

/-- C5: the three optional properties of a parsed entry are extracted
independently (each field is a function of its own property lookup alone,
and parsing is total — no property failure can raise an error or disturb
another field); an entry carrying only an href and a content-length child
yields `size = (parse of the text)`, `date = none`, `file_type = none`,
where the size is `some v` exactly when the text parses as u64 and `none`
when it does not. -/
theorem C5_tolerant_extraction (join : Url → String → Except String Url)
    (pd : String → Except String Int) (base : Url) :
    (∀ response : Element,
      (CatalogueInfo.new join pd base response).size = entrySizeProperty response ∧
      (CatalogueInfo.new join pd base response).date = entryDateProperty pd response ∧
      (CatalogueInfo.new join pd base response).file_type = entryTypeProperty response) ∧
    (∀ name_text size_text : String,
      (CatalogueInfo.new join pd base (entryWithSizeOnly name_text size_text)).size =
        (parseU64Str size_text).toOption ∧
      (CatalogueInfo.new join pd base (entryWithSizeOnly name_text size_text)).date =
        none ∧
      (CatalogueInfo.new join pd base (entryWithSizeOnly name_text size_text)).file_type =
        none) := by
  constructor
  · intro response
    unfold CatalogueInfo.new entrySizeProperty entryDateProperty entryTypeProperty
      entryPropElement
    cases h : (response.get_child "propstat" "DAV:").bind
        (fun propstat => propstat.get_child "prop" "DAV:") with
    | none => simp [h]
    | some prop => simp [h]
  · intro name_text size_text
    refine ⟨?_, rfl, rfl⟩
    have h1 : (CatalogueInfo.new join pd base
          (entryWithSizeOnly name_text size_text)).size =
        extractProperty parseU64Str
          (Element.mk "prop" "DAV:"
            [Element.mk "getcontentlength" "DAV:" [] size_text] "")
          "getcontentlength" "DAV:" := rfl
    rw [h1, extractProperty_toOption parseU64Str
      (Element.mk "prop" "DAV:"
        [Element.mk "getcontentlength" "DAV:" [] size_text] "")
      "getcontentlength" "DAV:"
      (Element.mk "getcontentlength" "DAV:" [] size_text) rfl]
    rfl

/-- C6: credential resolution is total and follows exact-hostname matching.
With the target URL's host in hand: if some table entry's hostname exactly
equals the URL's domain (the test is plain string equality — never wildcard
or suffix matching — and only `Domain` hosts can match), the first such
entry's login/password is returned with no diagnostic; if no entry matches
but a default entry exists, the default's login/password is returned; if
neither exists, the anonymous pair `("", "")` is returned together with the
fallback warning.  (The matched entry is assumed to carry a password; the
password-less case is the subject of C10.) -/
theorem C6_credential_resolution (netrc : Netrc) (url : Url) (h : UrlHost)
    (hh : url.host = some h) :
    (∀ entry pw, netrc.hosts.find? (hostMatchesEntry h) = some entry →
      entry.2.password = some pw →
      DavController.buildClient netrc url = ((entry.2.login, pw), [])) ∧
    (∀ machine pw, netrc.hosts.find? (hostMatchesEntry h) = none →
      netrc.default = some machine → machine.password = some pw →
      DavController.buildClient netrc url = ((machine.login, pw), [])) ∧
    (netrc.hosts.find? (hostMatchesEntry h) = none → netrc.default = none →
      DavController.buildClient netrc url =
        (("", ""), [Event.warnAnonymous url])) := by
  refine ⟨?_, ?_, ?_⟩
  · intro entry pw hfind hpw
    simp [DavController.buildClient, DavController.findInNetrc, hh, hfind, hpw]
  · intro machine pw hfind hdef hpw
    simp [DavController.buildClient, DavController.findInNetrc, hh, hfind, hdef, hpw]
  · intro hfind hdef
    simp [DavController.buildClient, DavController.findInNetrc, hh, hfind, hdef]

/-- A credential table with one per-host entry and a default entry. -/
def netrcW : Netrc :=
  { hosts := [("example.com", { login := "u", password := some "p" })],
    default := some { login := "d", password := some "dp" } }

/-- A target URL on the host of the table entry. -/
def urlW : Url :=
  { full := "https://example.com/dir/", host := some (.Domain "example.com"),
    path := "/dir/" }

/-- C6 witness: resolution against `netrcW` for a URL on `example.com`
returns that entry's login/password with no warning. -/
theorem C6_credential_resolution_witness :
    DavController.buildClient netrcW urlW =
      (("u", "p"), []) :=
  (C6_credential_resolution netrcW urlW (.Domain "example.com") rfl).1
    ("example.com", { login := "u", password := some "p" }) "p" rfl rfl

/-- C10: when the matched table entry (found per host or by the default
fallback — both paths go through `_find_in_netrc`) has no password, its
login is discarded: resolution warns and returns the anonymous pair. -/
theorem C10_entry_without_password_discarded (netrc : Netrc) (url : Url)
    (h : UrlHost) (machine : Machine) (hh : url.host = some h)
    (hf : DavController.findInNetrc netrc h = some machine)
    (hpw : machine.password = none) :
    DavController.buildClient netrc url =
      (("", ""), [Event.warnAnonymous url]) := by
  simp [DavController.buildClient, hh, hf, hpw]

/-- A credential table whose only entry carries no password. -/
def netrcNoPw : Netrc :=
  { hosts := [("example.com", { login := "u", password := none })],
    default := none }

/-- C10 witness: a matching entry without a password resolves to anonymous
credentials plus the warning. -/
theorem C10_entry_without_password_discarded_witness :
    DavController.buildClient netrcNoPw urlW =
      (("", ""), [Event.warnAnonymous urlW]) :=
  C10_entry_without_password_discarded netrcNoPw urlW (.Domain "example.com")
    { login := "u", password := none } rfl rfl rfl

/-- An empty multistatus element. -/
def elemEmpty : Element := .mk "multistatus" "DAV:" [] ""

/-- A concrete environment in which `/tmp` is the only directory, local
files can be created and opened, and the transport is unreachable (every
call fails with `connection refused`). -/
def env0 : Env :=
  { join := fun base _ => .ok base,
    parseDate := fun _ => .error "unparsed",
    fileName := fun p => some p,
    isFile := fun _ => true,
    isDir := fun d => d == "/tmp",
    openFile := fun _ => .ok (),
    createFile := fun _ => .ok (),
    copyBody := fun _ _ => .ok (),
    flushFile := fun _ => .ok (),
    putResult := fun _ _ => .error "connection refused",
    getResult := fun _ => .error "connection refused",
    listResult := fun _ => .error "connection refused",
    parseXml := fun _ => .ok elemEmpty }

/-- The source URL `https://example.com/a/b.txt`. -/
def src0 : Url :=
  { full := "https://example.com/a/b.txt",
    host := some (.Domain "example.com"), path := "/a/b.txt" }

/-- C2 counterexample: with an existing destination directory and an
unreachable server, the download of one source produces the event trace
`[fileCreate, transportGet]` and a transport error: the local file is
created *before* the transport call is issued, and it is created even
though the transport call never began succeeding. -/
theorem C2_file_created_before_transport :
    (DavController.getOne env0 src0 "/tmp").2 =
      [Event.fileCreate "/tmp/b.txt", Event.transportGet src0] ∧
    (DavController.getOne env0 src0 "/tmp").1 =
      .error (.Dav "connection refused") := by
  constructor <;> rfl

/-- C2 amended: per source, the local destination file is created eagerly —
whenever the destination directory exists, a filename is extractable from
the source URL and local file creation succeeds, the event trace of
`_get_one` is exactly the file creation followed by the transport call,
regardless of whether the transport call succeeds. -/
theorem C2_create_precedes_transport (env : Env) (source : Url)
    (target_dir filename : String)
    (hd : env.isDir target_dir = true)
    (hf : source.pathSegmentsLast = some filename)
    (hc : env.createFile (pathJoin target_dir filename) = .ok ()) :
    (DavController.getOne env source target_dir).2 =
      [Event.fileCreate (pathJoin target_dir filename),
       Event.transportGet source] := by
  cases hg : env.getResult source with
  | error msg =>
    simp [DavController.getOne, hd, hf, hc, hg]
  | ok response =>
    cases he : ensureResponseOk response with
    | error e =>
      simp [DavController.getOne, hd, hf, hc, hg, he]
    | ok response2 =>
      cases hcb : env.copyBody source (pathJoin target_dir filename) with
      | error msg =>
        simp [DavController.getOne, hd, hf, hc, hg, he, hcb]
      | ok u =>
        cases hfl : env.flushFile (pathJoin target_dir filename) with
        | error e =>
          simp [DavController.getOne, hd, hf, hc, hg, he, hcb, hfl]
        | ok u2 =>
          simp [DavController.getOne, hd, hf, hc, hg, he, hcb, hfl]

/-- C2 witness for the amended statement, at the concrete environment. -/
theorem C2_create_precedes_transport_witness :
    (DavController.getOne env0 src0 "/tmp").2 =
      [Event.fileCreate (pathJoin "/tmp" "b.txt"), Event.transportGet src0] :=
  C2_create_precedes_transport env0 src0 "/tmp" "b.txt" rfl rfl rfl

/-- Credential resolution performs no transport call: its trace holds at
most the anonymous-fallback warning. -/
theorem buildClient_no_transport (netrc : Netrc) (url : Url) :
    ∀ e ∈ (DavController.buildClient netrc url).2, Event.isTransport e = false := by
  cases hh : url.host with
  | none => simp [DavController.buildClient, hh, Event.isTransport]
  | some hostname =>
    cases hf : DavController.findInNetrc netrc hostname with
    | none => simp [DavController.buildClient, hh, hf, Event.isTransport]
    | some machine =>
      cases hp : machine.password with
      | none => simp [DavController.buildClient, hh, hf, hp, Event.isTransport]
      | some password => simp [DavController.buildClient, hh, hf, hp]

/-- Folding a step that only appends one fixed result and no events. -/
theorem foldl_snoc_const {α β : Type} (e : β) :
    ∀ (l : List α) (acc : List β × List Event),
      l.foldl (fun acc _ => (acc.1 ++ [e], acc.2)) acc =
        (acc.1 ++ l.map (fun _ => e), acc.2) := by
  intro l
  induction l with
  | nil => intro acc; simp
  | cons x xs ih => intro acc; simp [List.foldl, ih]

/-- Under a non-collection target with a batch of length other than one,
one put step appends the `InvalidDestination` error and nothing else. -/
theorem putStep_noncollection_multi (env : Env) (file_paths : List String)
    (target_base : Url)
    (hnc : pathEndsWithSlash target_base.path = false)
    (hlen : (file_paths.length == 1) = false)
    (acc : List (Except DavCtrlError TransportResponse) × List Event)
    (file_path : String) :
    DavController.putStep env file_paths target_base acc file_path =
      (acc.1 ++ [.error (.InvalidDestination
        ("Given target URL " ++ target_base.full ++
         " is not a directory and cannot receive multiple files"))], acc.2) := by
  simp [DavController.putStep, hnc, hlen]

/-- C3: against a non-collection-shaped target (path not ending in a
slash):
with exactly one file, `put` performs exactly the single upload `_put_one`
against `target_base` itself — the file name is never joined onto the
target, so the target's last path segment is not replaced — and besides
that upload call the trace holds only the credential-resolution events;
with two or more files, every file's result is the `InvalidDestination`
error and the trace holds no transport event at all. -/
theorem C3_put_noncollection (env : Env) (netrc : Netrc)
    (file_paths : List String) (target_base : Url)
    (hnc : pathEndsWithSlash target_base.path = false) :
    (∀ f, file_paths = [f] →
      DavController.put env netrc file_paths target_base =
        ([(DavController.putOne env f target_base).1],
         (DavController.buildClient netrc target_base).2 ++
           (DavController.putOne env f target_base).2)) ∧
    (2 ≤ file_paths.length →
      (DavController.put env netrc file_paths target_base).1 =
        file_paths.map (fun _ => .error (.InvalidDestination
          ("Given target URL " ++ target_base.full ++
           " is not a directory and cannot receive multiple files"))) ∧
      ∀ e ∈ (DavController.put env netrc file_paths target_base).2,
        Event.isTransport e = false) := by
  constructor
  · intro f hf
    subst hf
    simp [DavController.put, DavController.putStep, hnc]
  · intro hlen
    have hlen1 : (file_paths.length == 1) = false := by
      simp only [beq_eq_false_iff_ne]
      omega
    have hstep : DavController.putStep env file_paths target_base =
        fun acc _ => (acc.1 ++ [.error (.InvalidDestination
          ("Given target URL " ++ target_base.full ++
           " is not a directory and cannot receive multiple files"))], acc.2) := by
      funext acc file_path
      exact putStep_noncollection_multi env file_paths target_base hnc hlen1
        acc file_path
    constructor
    · show (DavController.put env netrc file_paths target_base).1 = _
      unfold DavController.put
      rw [hstep, foldl_snoc_const]
      simp
    · intro e he
      apply buildClient_no_transport netrc target_base
      unfold DavController.put at he
      rw [hstep, foldl_snoc_const] at he
      simpa using he

/-- A non-collection-shaped target URL (path has no trailing slash). -/
def urlNC : Url :=
  { full := "https://example.com/file", host := some (.Domain "example.com"),
    path := "/file" }

/-- C3 witness: two files against the non-collection target yield two
`InvalidDestination` results and a transport-free trace. -/
theorem C3_put_noncollection_witness :
    (DavController.put env0 netrcW ["f1", "f2"] urlNC).1 =
      ["f1", "f2"].map (fun _ => .error (.InvalidDestination
        ("Given target URL " ++ urlNC.full ++
         " is not a directory and cannot receive multiple files"))) ∧
    ∀ e ∈ (DavController.put env0 netrcW ["f1", "f2"] urlNC).2,
      Event.isTransport e = false :=
  (C3_put_noncollection env0 netrcW ["f1", "f2"] urlNC (by decide)).2 (by decide)

/-- The digit-part evaluation only succeeds within the u64 range. -/
theorem parseU64Digits_le (ds : List Char) (v : Nat)
    (h : parseU64Digits ds = .ok v) : v ≤ u64Max := by
  unfold parseU64Digits at h
  split at h
  · exact absurd h (by simp)
  · split at h
    · split at h
      · cases h; assumption
      · exact absurd h (by simp)
    · exact absurd h (by simp)

/-- A u64 parse only succeeds within the u64 range. -/
theorem parseU64_le_u64Max (s : String) (v : Nat)
    (h : parseU64 s = .ok v) : v ≤ u64Max := by
  unfold parseU64 at h
  split at h
  · exact absurd h (by simp)
  · exact parseU64Digits_le _ _ h

/-- A size extracted by the tolerant property extraction is within the u64
range. -/
theorem extractProperty_size_le (prop : Element) (n ns : String) (s : Nat)
    (h : extractProperty parseU64Str prop n ns = some s) : s ≤ u64Max := by
  unfold extractProperty at h
  split at h
  · rename_i node hnode
    split at h
    · rename_i v hv
      cases h
      unfold parseU64Str at hv
      split at hv
      · cases hv; exact parseU64_le_u64Max _ _ (by assumption)
      · exact absurd hv (by simp)
    · exact absurd h (by simp)
  · exact absurd h (by simp)

/-- The size field of a parsed entry is the standalone size extraction (a
shared step of the independence argument and the u64 range bound). -/
theorem new_size_eq (join : Url → String → Except String Url)
    (pd : String → Except String Int) (base : Url) (response : Element) :
    (CatalogueInfo.new join pd base response).size = entrySizeProperty response := by
  unfold CatalogueInfo.new entrySizeProperty entryPropElement
  cases hp : (response.get_child "propstat" "DAV:").bind
      (fun propstat => propstat.get_child "prop" "DAV:") with
  | none => simp [hp]
  | some prop => simp [hp]

/-- Every size stored in a parsed catalogue entry is within the u64
range. -/
theorem new_size_le (join : Url → String → Except String Url)
    (pd : String → Except String Int) (base : Url) (response : Element)
    (s : Nat) (h : (CatalogueInfo.new join pd base response).size = some s) :
    s ≤ u64Max := by
  rw [new_size_eq] at h
  unfold entrySizeProperty at h
  cases hp : entryPropElement response with
  | none => rw [hp] at h; exact absurd h (by simp)
  | some prop =>
    rw [hp] at h
    simp only [Option.bind_some, Option.some_bind] at h
    exact extractProperty_size_le _ _ _ _ h

/-- `match_all` accepts every entry whose size (when present) is a u64
value. -/
theorem match_all_matches (attrs : CatalogueInfo)
    (hs : ∀ s, attrs.size = some s → s ≤ u64Max) :
    FilterCriteria.match_all.matches attrs = true := by
  have hmt : FilterCriteria.matchesTime ⟨none, none, none, none, none⟩ attrs = true := by
    rw [matchesTime_no_bounds, matchesType_none]
  cases h : attrs.size with
  | none =>
    simp [FilterCriteria.matches, FilterCriteria.match_all, h, hmt]
  | some s =>
    have hle := hs s h
    simp [FilterCriteria.matches, FilterCriteria.match_all, h, hmt, Option.getD]
    omega

/-- The `ls` child loop under `match_all` keeps every `response` child, in
order, parsed by `CatalogueInfo::new`. -/
theorem lsChildren_match_all (env : Env) (base : Url) :
    ∀ (cs : List Element) (acc : List CatalogueInfo),
      DavController.lsChildren env base FilterCriteria.match_all cs acc =
        .ok (acc ++ (cs.filter (fun c => c.is "response" "DAV:")).map
          (fun c => CatalogueInfo.new env.join env.parseDate base c)) := by
  intro cs
  induction cs with
  | nil => intro acc; simp [DavController.lsChildren]
  | cons c rest ih =>
    intro acc
    cases hc : c.is "response" "DAV:" with
    | false =>
      simp [DavController.lsChildren, hc, List.filter_cons, ih]
    | true =>
      have hmatch : FilterCriteria.match_all.matches
          (CatalogueInfo.new env.join env.parseDate base c) = true :=
        match_all_matches _ (fun s hsz => new_size_le _ _ _ _ _ hsz)
      simp [DavController.lsChildren, hc,
        DavController.readAttributesFromResponse, hmatch, List.filter_cons, ih]

/-- C8: on a successful listing response whose parsed root is a
multistatus element with `k` listing-entry (`response`) children, `ls` with
`match_all` returns exactly those `k` children — each parsed by
`CatalogueInfo::new` — in the order received (a filter of the child list,
never re-sorted); and `match_all` accepts every entry (whose size, when
present, is a u64 value) regardless of size, time or type. -/
theorem C8_ls_match_all (env : Env) (netrc : Netrc) (url : Url)
    (resp : TransportResponse) (root : Element) (k : Nat)
    (hl : env.listResult url = .ok resp)
    (hs : statusIsSuccess resp.status = true)
    (hx : env.parseXml resp.body = .ok root)
    (hm : root.is "multistatus" "DAV:" = true)
    (hk : (root.children.filter (fun c => c.is "response" "DAV:")).length = k) :
    (DavController.ls env netrc url FilterCriteria.match_all).1 =
      .ok ((root.children.filter (fun c => c.is "response" "DAV:")).map
        (fun c => CatalogueInfo.new env.join env.parseDate url c)) ∧
    (∀ entries, (DavController.ls env netrc url FilterCriteria.match_all).1 =
        .ok entries → entries.length = k) ∧
    (∀ attrs : CatalogueInfo, (∀ s, attrs.size = some s → s ≤ u64Max) →
      FilterCriteria.match_all.matches attrs = true) := by
  have hok : ensureResponseOk resp = .ok resp := by
    simp [ensureResponseOk, hs]
  have h1 : (DavController.ls env netrc url FilterCriteria.match_all).1 =
      .ok ((root.children.filter (fun c => c.is "response" "DAV:")).map
        (fun c => CatalogueInfo.new env.join env.parseDate url c)) := by
    simp [DavController.ls, hl, hok, hx, hm, lsChildren_match_all]
  refine ⟨h1, ?_, fun attrs h => match_all_matches attrs h⟩
  intro entries he
  rw [h1] at he
  simp only [Except.ok.injEq] at he
  subst he
  simpa using hk

/-- A successful multistatus response body. -/
def respW : TransportResponse := { status := 207, body := "xml" }

/-- A listing-entry element with no href and no properties at all. -/
def entryB : Element := .mk "response" "DAV:" [] ""

/-- A multistatus root with two listing-entry children (one carrying a
content-length property, one empty) and one non-entry child. -/
def rootW : Element :=
  .mk "multistatus" "DAV:"
    [entryWithSizeOnly "a.txt" "13", .mk "ignored" "DAV:" [] "", entryB] ""

/-- Environment whose transport returns the two-entry listing. -/
def envLs : Env :=
  { env0 with
    listResult := fun _ => .ok respW
    parseXml := fun _ => .ok rootW }

/-- C8 witness: the listing theorem applied at the concrete two-entry
multistatus response. -/
theorem C8_ls_match_all_witness :
    (DavController.ls envLs netrcW urlW FilterCriteria.match_all).1 =
      .ok ((rootW.children.filter (fun c => c.is "response" "DAV:")).map
        (fun c => CatalogueInfo.new envLs.join envLs.parseDate urlW c)) ∧
    (∀ entries, (DavController.ls envLs netrcW urlW FilterCriteria.match_all).1 =
        .ok entries → entries.length = 2) ∧
    (∀ attrs : CatalogueInfo, (∀ s, attrs.size = some s → s ≤ u64Max) →
      FilterCriteria.match_all.matches attrs = true) :=
  C8_ls_match_all envLs netrcW urlW respW rootW 2 rfl rfl rfl rfl rfl

/-- C9: on a successful listing response whose parsed root is not a
multistatus element, `ls` fails with the malformed-data error
(`Local(InvalidData)`, the code's rendering of `MalformedResponse`) and
returns no entry list. -/
theorem C9_ls_not_multistatus (env : Env) (netrc : Netrc) (url : Url)
    (filter : FilterCriteria) (resp : TransportResponse) (root : Element)
    (hl : env.listResult url = .ok resp)
    (hs : statusIsSuccess resp.status = true)
    (hx : env.parseXml resp.body = .ok root)
    (hm : root.is "multistatus" "DAV:" = false) :
    (DavController.ls env netrc url filter).1 =
      .error (.Local .invalidData) := by
  have hok : ensureResponseOk resp = .ok resp := by
    simp [ensureResponseOk, hs]
  simp [DavController.ls, hl, hok, hx, hm]

/-- Environment whose transport returns a non-multistatus root. -/
def envBadRoot : Env :=
  { env0 with
    listResult := fun _ => .ok respW
    parseXml := fun _ => .ok (.mk "html" "" [] "") }

/-- C9 witness: `ls` against an `html` root fails with the malformed-data
error. -/
theorem C9_ls_not_multistatus_witness :
    (DavController.ls envBadRoot netrcW urlW FilterCriteria.match_all).1 =
      .error (.Local .invalidData) :=
  C9_ls_not_multistatus envBadRoot netrcW urlW FilterCriteria.match_all respW
    (.mk "html" "" [] "") rfl rfl rfl rfl
